import Mathlib

/-!
Verification of the LearnMate frontend request-lifecycle and status-polling
protocol, shallowly embedded from the TypeScript sources:

* `frontend/src/app/sessions/[id]/page.tsx` — the `sendMessageMutation`
  poll loop (lines 54-194), `resetChat` (lines 334-349) and
  `handleChatSubmit` (lines 393-399);
* `frontend/src/lib/api.ts` — the axios instance configuration (lines 4-15),
  the response interceptor with its retry rule (lines 33-61) and
  `chat.checkMessageStatus` (lines 296-319).

Machine integers do not occur; all counters and durations are natural
numbers of milliseconds.  Fallible network calls are modelled as
environment-supplied events (a response, or the information that the call
threw), so that every behaviour of the untrusted network is quantified over.
-/

namespace LearnMate

/-- A chat message as the frontend sees it: the fields `role` and `content`
are the only ones the poll loop inspects (`message_id` and `timestamp` are
carried along unchanged and are irrelevant to every claim). -/
structure ChatMsg where
  role : String
  content : String
  deriving Repr, DecidableEq

/-- The body of `GET /sessions/id/chat/status/request_id` as used by the
poll loop: a `status` string, an optional `result` and an optional
`error_detail`.  In the source the result object has fields
content/message_id/timestamp; we reuse `ChatMsg` for it (its `role` field is
unused on this path). -/
structure StatusResponse where
  status : String
  result : Option ChatMsg
  error_detail : Option String
  deriving Repr, DecidableEq

/-- Outcome of one `checkMessageStatus` call as observed by the poll loop:
either a parsed response, or the call threw (network error, timeout, 5xx
after the interceptor gave up). -/
inductive CheckEvent where
  | resp (r : StatusResponse)
  | threw
  deriving Repr, DecidableEq

/-- The environment of one run of the poll loop: what every status check
returns, what every history fetch returns (`none` models a thrown fetch),
and the timing data the loop reads from `performance.now()`.

`extra i` is the time iteration `i` takes beyond the fixed 5000 ms sleep,
so the `elapsedTime` variable measured at iteration `i+1` equals the value
measured at iteration `i` plus `5000 + extra i`.

`errGap i` is the value of `performance.now() - lastPollTime` at the moment
the catch block of iteration `i` evaluates its guard, `lastPollTime` having
been assigned at the start of the same iteration (page.tsx line 93). -/
structure PollEnv where
  check : Nat → CheckEvent
  histEmpty : Nat → Option (List ChatMsg)
  histCatch : Nat → Option (List ChatMsg)
  extra : Nat → Nat
  errGap : Nat → Nat

/-- Result of one iteration of the loop body: break out of the loop with an
outcome, or continue with the updated `consecutiveEmptyResponses` counter. -/
inductive StepRes where
  | done (m : ChatMsg)
  | cont (counter : Nat)
  deriving Repr, DecidableEq

/-- Overall outcome of `sendMessageMutation`: the returned `result`, or the
error thrown after the loop (the only throw after the loop is the timeout
error, page.tsx line 186). -/
inductive Outcome where
  | success (m : ChatMsg)
  | failure (msg : String)
  deriving Repr, DecidableEq

/-- The exact message of the error thrown when the loop exits without a
result (page.tsx line 186). -/
def timeoutMessage : String :=
  "Request processing exceeded maximum time limit (2 hours). The system may be overloaded or your request is too complex. Please try again later with a simpler query."

/-- page.tsx line 141: the spread copy of the history is reversed and searched with find for the first message whose role equals assistant. -/
def latestAssistant (msgs : List ChatMsg) : Option ChatMsg :=
  msgs.reverse.find? (fun m => m.role == "assistant")

/-- The fallback body shared by both history-reading paths
(page.tsx lines 139-149 and 165-175): if the fetched history is non-null and
non-empty, find the latest assistant message; if it exists and its content
is non-empty, break with it as the result; in every other case fall through
and keep polling with the counter unchanged. -/
def historyFallback (hist : Option (List ChatMsg)) (counter : Nat) : StepRes :=
  match hist with
  | some msgs =>
    if msgs = [] then StepRes.cont counter
    else
      match latestAssistant msgs with
      | some m => if m.content = "" then StepRes.cont counter else StepRes.done m
      | none => StepRes.cont counter
  | none => StepRes.cont counter

/-- The catch block of the loop body (page.tsx lines 156-182): polling
errors are swallowed; only when more than 30000 ms passed since
`lastPollTime` — assigned at the start of this very iteration — is a direct
history fetch attempted, itself guarded by an inner try/catch. -/
def catchCase (env : PollEnv) (counter i : Nat) : StepRes :=
  if 30000 < env.errGap i then historyFallback (env.histCatch i) counter
  else StepRes.cont counter

/-- The branch for a `complete` status whose result is missing or has empty
content (page.tsx lines 130-151).  `counter` has already been incremented.
The history fetch on line 137 sits inside the outer try, so when it throws
(`histEmpty i = none`) control transfers to the catch block. -/
def emptyCase (env : PollEnv) (counter i : Nat) : StepRes :=
  if 3 ≤ counter then
    match env.histEmpty i with
    | some msgs => historyFallback (some msgs) counter
    | none => catchCase env counter i
  else StepRes.cont counter

/-- One iteration of the poll-loop body (page.tsx lines 95-182), after the
sleep and the timing assignments.  The periodic update of the loading
message (lines 97-117) has no effect on the loop state and is omitted. -/
def pollStep (env : PollEnv) (counter i : Nat) : StepRes :=
  match env.check i with
  | CheckEvent.resp r =>
    if r.status = "complete" then
      match r.result with
      | some res =>
        if res.content = "" then emptyCase env (counter + 1) i
        else StepRes.done res
      | none => emptyCase env (counter + 1) i
    else StepRes.cont 0
  | CheckEvent.threw => catchCase env counter i

/-- The poll loop (page.tsx lines 89-187) with structural fuel.  The guard
`elapsed < 7200000` is the source condition `elapsedTime < 7200000`; each
iteration sleeps 5000 ms and then remeasures `elapsedTime`, so the value
grows by `5000 + env.extra i`.  When the guard fails the mutation throws
`timeoutMessage`.  `none` is returned only on fuel exhaustion, which
`pollLoopAux_total` below proves unreachable from the initial fuel. -/
def pollLoopAux (env : PollEnv) : (fuel elapsed counter i : Nat) → Option Outcome
  | 0, elapsed, _, _ =>
    if elapsed < 7200000 then none else some (Outcome.failure timeoutMessage)
  | fuel + 1, elapsed, counter, i =>
    if elapsed < 7200000 then
      match pollStep env counter i with
      | StepRes.done m => some (Outcome.success m)
      | StepRes.cont c => pollLoopAux env fuel (elapsed + 5000 + env.extra i) c (i + 1)
    else some (Outcome.failure timeoutMessage)

/-- The poll loop from its initial state: `elapsedTime = 0`,
`consecutiveEmptyResponses = 0`.  Fuel 1440 = 7200000 / 5000 bounds the
number of iterations, since `elapsedTime` grows by at least 5000 each time. -/
def pollLoop (env : PollEnv) : Option Outcome :=
  pollLoopAux env 1440 0 0 0

/-- JS truthiness of `!(statusResponse.result && statusResponse.result.content)`:
the result is missing, or its content is the empty string. -/
def resultEmptyB (r : StatusResponse) : Bool :=
  match r.result with
  | none => true
  | some res => res.content = ""

/-! ## The api client (`frontend/src/lib/api.ts`) -/

/-- What one `checkMessageStatus` call performs, given the stream of status
responses the two possible GET requests would return (api.ts lines 296-319):
the response it hands back to the caller, the number of status GET requests
it issued, and the artificial delay it awaited. -/
structure CheckOutcome where
  returned : StatusResponse
  requests : Nat
  delayMs : Nat
  deriving Repr, DecidableEq

/-- api.ts lines 296-319: fetch the status; when it is `complete` with the
`result` field missing, wait 1000 ms, fetch once more and return that second
response unconditionally; otherwise return the first response. -/
def checkMessageStatus (responses : Nat → StatusResponse) : CheckOutcome :=
  let r0 := responses 0
  if r0.status = "complete" ∧ r0.result = none then
    { returned := responses 1, requests := 2, delayMs := 1000 }
  else
    { returned := r0, requests := 1, delayMs := 0 }

/-- The request configuration the axios instance attaches to a request:
its url, the effective timeout, and the `_retry` marker the interceptor
sets before retrying. -/
structure AxiosConfig where
  url : String
  timeoutMs : Nat
  retryFlag : Bool
  deriving Repr, DecidableEq

/-- api.ts lines 7-15: `axios.create` installs a default `timeout` of
7200000 ms; no call site in `apiClient` overrides it, so every request
config starts from this shape with `_retry` unset. -/
def mkConfig (url : String) : AxiosConfig :=
  { url := url, timeoutMs := 7200000, retryFlag := false }

/-- The error object the response interceptor examines: whether a response
arrived at all, its HTTP status when it did, and whether the error code was
ECONNABORTED (axios timeout). -/
structure AxiosError where
  hasResponse : Bool
  status : Nat
  econnaborted : Bool
  deriving Repr, DecidableEq

/-- `a.includes(b)` on JS strings: `b` occurs as a contiguous substring. -/
def charsPrefixMatch : List Char → List Char → Bool
  | [], _ => true
  | _ :: _, [] => false
  | a :: as, b :: bs => a == b && charsPrefixMatch as bs

/-- Helper for `urlIncludes`, scanning every suffix of the haystack. -/
def charsIncl (needle : List Char) : List Char → Bool
  | [] => needle.isEmpty
  | c :: rest => charsPrefixMatch needle (c :: rest) || charsIncl needle rest

/-- `config.url.includes(sub)`. -/
def urlIncludes (url sub : String) : Bool :=
  charsIncl sub.data url.data

/-- api.ts lines 49-52, the retry condition of the response interceptor:
retry only when no response arrived, or the error code was ECONNABORTED,
or the response status was at least 500; and only when the config exists,
its retry marker is unset, and the url does not contain the auth-me path. -/
def shouldRetry (cfg : AxiosConfig) (e : AxiosError) : Bool :=
  (!e.hasResponse || e.econnaborted || decide (500 ≤ e.status))
    && !cfg.retryFlag && !(urlIncludes cfg.url "/auth/me")

/-- Result of one network attempt: success, or an error object handed to
the response interceptor. -/
inductive AxiosResult where
  | ok
  | err (e : AxiosError)
  deriving Repr, DecidableEq

/-- Observable outcome of issuing one request through the shared client:
the final result delivered to the caller, the number of attempts actually
sent, and the total retry delay awaited. -/
structure RunOutcome where
  result : AxiosResult
  attemptsMade : Nat
  delayMs : Nat
  deriving Repr, DecidableEq

/-- A request through the shared client with the response interceptor of
api.ts lines 33-61 applied after each failed attempt.  Before a retry the
interceptor sets `config._retry = true` and waits 1000 ms; the branch in
which a second retry would fire is written out and is proved dead in
`runRequest_attempts_le_two` (the `_retry` flag falsifies `shouldRetry`). -/
def runRequest (cfg : AxiosConfig) (attempts : Nat → AxiosResult) : RunOutcome :=
  match attempts 0 with
  | AxiosResult.ok => { result := AxiosResult.ok, attemptsMade := 1, delayMs := 0 }
  | AxiosResult.err e =>
    if shouldRetry cfg e then
      match attempts 1 with
      | AxiosResult.ok => { result := AxiosResult.ok, attemptsMade := 2, delayMs := 1000 }
      | AxiosResult.err e2 =>
        if shouldRetry { cfg with retryFlag := true } e2 then
          { result := AxiosResult.err e2, attemptsMade := 3, delayMs := 2000 }
        else
          { result := AxiosResult.err e2, attemptsMade := 2, delayMs := 1000 }
    else { result := AxiosResult.err e, attemptsMade := 1, delayMs := 0 }

/-! ## resetChat and handleChatSubmit (`page.tsx`) -/

/-- A message as held in the `chatHistory` React state, including the
client-side `isTyping` marker placed on placeholder messages. -/
structure UiMsg where
  role : String
  content : String
  isTyping : Bool
  deriving Repr, DecidableEq

/-- The client-side chat state touched by `resetChat`. -/
structure ChatUiState where
  isTyping : Bool
  chatError : Option String
  chatHistory : List UiMsg
  deriving Repr, DecidableEq

/-- HTTP method of a request issued to the backend. -/
inductive HttpMethod where
  | get
  | post
  | put
  | delete
  deriving Repr, DecidableEq

/-- A request issued to the backend, as method and path. -/
structure ReqSpec where
  method : HttpMethod
  path : String
  deriving Repr, DecidableEq

/-- The predicate of the filter in `resetChat` (page.tsx line 344): a
typing-indicator placeholder is an assistant message flagged `isTyping` or
whose content is the literal `...`. -/
def isIndicator (m : UiMsg) : Bool :=
  m.role == "assistant" && (m.isTyping || m.content == "...")

/-- page.tsx lines 334-349: `resetChat` sets `isTyping` to false, clears
`chatError`, invalidates the chat query — which re-fetches the history with
`GET /api/v1/sessions/id/chat` — and filters the typing indicators out of
the displayed history.  The returned list is every request this handler
causes to be issued. -/
def resetChat (id : String) (s : ChatUiState) : ChatUiState × List ReqSpec :=
  ({ isTyping := false
     chatError := none
     chatHistory := s.chatHistory.filter
       (fun msg => !(msg.role == "assistant" && (msg.isTyping || msg.content == "..."))) },
   [{ method := HttpMethod.get, path := "/api/v1/sessions/" ++ id ++ "/chat" }])

/-- Modelled from the spec: the backend implementation is not under src
(only its README is), so server request handling is taken from the spec,
which states that reads do not mutate ("Idempotence: polling get_status
repeatedly ... no mutation on read"; the history GET likewise only reads).
A GET leaves the server state unchanged; any other method may mutate it
through an arbitrary `writeSem`. -/
def serverApply {σ : Type} (writeSem : σ → ReqSpec → σ) (srv : σ) (r : ReqSpec) : σ :=
  match r.method with
  | HttpMethod.get => srv
  | _ => writeSem srv r

/-- The whitespace class of the JS `String.prototype.trim`, per the
ECMAScript WhiteSpace and LineTerminator productions: tab, line feed,
vertical tab, form feed, carriage return, space, no-break space,
zero-width no-break space (U+FEFF), line separator (U+2028), paragraph
separator (U+2029), and every Space_Separator code point (U+1680,
U+2000 through U+200A, U+202F, U+205F, U+3000). -/
def isJsSpace (c : Char) : Bool :=
  c == ' ' || c == '\t' || c == '\n' || c == '\r' ||
    c == '\x0b' || c == '\x0c' || c == '\u00A0' || c == '\uFEFF' ||
    c == '\u2028' || c == '\u2029' || c == '\u1680' ||
    c == '\u2000' || c == '\u2001' || c == '\u2002' || c == '\u2003' ||
    c == '\u2004' || c == '\u2005' || c == '\u2006' || c == '\u2007' ||
    c == '\u2008' || c == '\u2009' || c == '\u200A' ||
    c == '\u202F' || c == '\u205F' || c == '\u3000'

/-- `chatMessage.trim()`. -/
def jsTrim (s : String) : String :=
  String.mk (((s.data.dropWhile isJsSpace).reverse.dropWhile isJsSpace).reverse)

/-- The one action `handleChatSubmit` can take: start the mutation, which
immediately posts `/chat/start` with the untrimmed message. -/
inductive ChatAction where
  | mutate (message : String)
  deriving Repr, DecidableEq

/-- page.tsx lines 393-399: `if (!chatMessage.trim()) return;` rejects a
blank message before `sendMessageMutation.mutate(chatMessage)` is reached,
so no start-processing request is issued and no request_id is created. -/
def handleChatSubmit (chatMessage : String) : Option ChatAction :=
  if jsTrim chatMessage = "" then none
  else some (ChatAction.mutate chatMessage)

/-! ## Concrete environments used by counterexamples and witnesses -/

/-- A successfully stored assistant answer sitting in the history. -/
def msgHello : ChatMsg := { role := "assistant", content := "Hi there!" }

/-- An assistant message with empty content. -/
def msgBlank : ChatMsg := { role := "assistant", content := "" }

/-- A status response reporting an unrecoverable server-side error. -/
def errorResp : StatusResponse :=
  { status := "error", result := none, error_detail := some "LLM backend unavailable" }

/-- A `complete` status response whose result is missing. -/
def emptyCompleteResp : StatusResponse :=
  { status := "complete", result := none, error_detail := none }

/-- A `processing` status response. -/
def processingResp : StatusResponse :=
  { status := "processing", result := none, error_detail := none }

/-- Environment for claim C1: every status check returns the `error`
status; history always holds a stored answer; each iteration takes
35000 ms in total. -/
def c1env : PollEnv :=
  { check := fun _ => CheckEvent.resp errorResp
    histEmpty := fun _ => some [msgHello]
    histCatch := fun _ => some [msgHello]
    extra := fun _ => 30000
    errGap := fun _ => 30000 }

/-- History for claim C2: an assistant answer with content followed by a
later assistant message with empty content. -/
def c2hist : List ChatMsg := [msgHello, msgBlank]

/-- Environment for claim C2: every status check returns `complete` with a
missing result, and the history ends in a content-less assistant message. -/
def c2env : PollEnv :=
  { check := fun _ => CheckEvent.resp emptyCompleteResp
    histEmpty := fun _ => some c2hist
    histCatch := fun _ => some c2hist
    extra := fun _ => 30000
    errGap := fun _ => 0 }

/-- Environment for claim C4: every status check throws after exactly
30000 ms (so each iteration lasts 35000 ms and the catch guard
`> 30000` is false every time), while history always holds an answer. -/
def c4env : PollEnv :=
  { check := fun _ => CheckEvent.threw
    histEmpty := fun _ => some [msgHello]
    histCatch := fun _ => some [msgHello]
    extra := fun _ => 30000
    errGap := fun _ => 30000 }

/-- Environment for claim C5: the first status check returns `complete`
with a missing result (already the retried response of
`checkMessageStatus`), every later one returns `processing`; history always
holds an answer. -/
def c5env : PollEnv :=
  { check := fun i =>
      if i = 0 then CheckEvent.resp emptyCompleteResp
      else CheckEvent.resp processingResp
    histEmpty := fun _ => some [msgHello]
    histCatch := fun _ => some [msgHello]
    extra := fun _ => 30000
    errGap := fun _ => 0 }

/-- Environment whose iteration 0 check throws after more than 30 s,
with history holding an answer: the catch-side fallback fires. -/
def lateErrEnv : PollEnv :=
  { check := fun _ => CheckEvent.threw
    histEmpty := fun _ => some [msgHello]
    histCatch := fun _ => some [msgHello]
    extra := fun _ => 31000
    errGap := fun _ => 31000 }

/-- Environment whose checks return `complete` with a missing result and
whose history holds a single assistant answer with content. -/
def goodHistEnv : PollEnv :=
  { check := fun _ => CheckEvent.resp emptyCompleteResp
    histEmpty := fun _ => some [msgHello]
    histCatch := fun _ => some [msgHello]
    extra := fun _ => 0
    errGap := fun _ => 0 }

/-- A network error: no response object at all. -/
def netErr : AxiosError := { hasResponse := false, status := 0, econnaborted := false }

/-- An HTTP 404 client-error response. -/
def notFoundErr : AxiosError := { hasResponse := true, status := 404, econnaborted := false }

/-- The config of the `/auth/me` probe issued by `apiClient.auth.me`. -/
def meConfig : AxiosConfig := mkConfig "/api/v1/auth/me"

/-- The config of a chat-status poll request. -/
def chatConfig : AxiosConfig := mkConfig "/api/v1/sessions/s1/chat/status/r1"

/-- An attempt stream that fails with a network error forever. -/
def alwaysNetErr : Nat → AxiosResult := fun _ => AxiosResult.err netErr

/-- An attempt stream that fails with a 404 forever. -/
def always404 : Nat → AxiosResult := fun _ => AxiosResult.err notFoundErr

/-! ## Helper lemmas -/

lemma latestAssistant_ne_nil {msgs : List ChatMsg} {m : ChatMsg}
    (h : latestAssistant msgs = some m) : msgs ≠ [] := by
  intro hn
  subst hn
  simp [latestAssistant] at h

lemma historyFallback_done {hist : Option (List ChatMsg)} {counter : Nat} {m : ChatMsg}
    (h : historyFallback hist counter = StepRes.done m) : m.content ≠ "" := by
  unfold historyFallback at h
  split at h
  · split at h
    · exact absurd h (by simp)
    · split at h
      · split at h
        · exact absurd h (by simp)
        · cases h
          assumption
      · exact absurd h (by simp)
  · exact absurd h (by simp)

lemma historyFallback_good {msgs : List ChatMsg} {counter : Nat} {m : ChatMsg}
    (hl : latestAssistant msgs = some m) (hc : m.content ≠ "") :
    historyFallback (some msgs) counter = StepRes.done m := by
  simp only [historyFallback]
  rw [if_neg (latestAssistant_ne_nil hl)]
  simp only [hl]
  rw [if_neg hc]

lemma catchCase_done {env : PollEnv} {counter i : Nat} {m : ChatMsg}
    (h : catchCase env counter i = StepRes.done m) : m.content ≠ "" := by
  unfold catchCase at h
  split at h
  · exact historyFallback_done h
  · exact absurd h (by simp)

lemma emptyCase_done {env : PollEnv} {counter i : Nat} {m : ChatMsg}
    (h : emptyCase env counter i = StepRes.done m) : m.content ≠ "" := by
  unfold emptyCase at h
  split at h
  · split at h
    · exact historyFallback_done h
    · exact catchCase_done h
  · exact absurd h (by simp)

lemma pollStep_done {env : PollEnv} {counter i : Nat} {m : ChatMsg}
    (h : pollStep env counter i = StepRes.done m) : m.content ≠ "" := by
  unfold pollStep at h
  split at h
  · split at h
    · split at h
      · split at h
        · exact emptyCase_done h
        · cases h
          assumption
      · exact emptyCase_done h
    · exact absurd h (by simp)
  · exact catchCase_done h

lemma pollStep_complete_empty {env : PollEnv} {counter i : Nat} {r : StatusResponse}
    (hc : env.check i = CheckEvent.resp r) (hs : r.status = "complete")
    (he : resultEmptyB r = true) :
    pollStep env counter i = emptyCase env (counter + 1) i := by
  simp only [pollStep, hc]
  rw [if_pos hs]
  cases hr : r.result with
  | none => simp
  | some res =>
    have hcc : res.content = "" := by
      simp only [resultEmptyB, hr] at he
      simpa using he
    simp [hcc]

lemma emptyCase_small {env : PollEnv} {counter i : Nat} (h : counter < 3) :
    emptyCase env counter i = StepRes.cont counter := by
  unfold emptyCase
  rw [if_neg (by omega)]

lemma emptyCase_fallback {env : PollEnv} {counter i : Nat} {msgs : List ChatMsg} {m : ChatMsg}
    (h3 : 3 ≤ counter) (hh : env.histEmpty i = some msgs)
    (hl : latestAssistant msgs = some m) (hc : m.content ≠ "") :
    emptyCase env counter i = StepRes.done m := by
  unfold emptyCase
  rw [if_pos h3, hh]
  exact historyFallback_good hl hc

lemma pollStep_empty_fallback {env : PollEnv} {counter i : Nat} {r : StatusResponse}
    {msgs : List ChatMsg} {m : ChatMsg}
    (hc : env.check i = CheckEvent.resp r) (hs : r.status = "complete")
    (he : resultEmptyB r = true) (h3 : 3 ≤ counter + 1)
    (hh : env.histEmpty i = some msgs) (hl : latestAssistant msgs = some m)
    (hcc : m.content ≠ "") :
    pollStep env counter i = StepRes.done m := by
  rw [pollStep_complete_empty hc hs he]
  exact emptyCase_fallback h3 hh hl hcc

lemma shouldRetry_flag_false (cfg : AxiosConfig) (e : AxiosError) :
    shouldRetry { cfg with retryFlag := true } e = false := by
  simp [shouldRetry]

lemma runRequest_attempts_le_two (cfg : AxiosConfig) (att : Nat → AxiosResult) :
    (runRequest cfg att).attemptsMade ≤ 2 := by
  cases h0 : att 0 with
  | ok => simp [runRequest, h0]
  | err e =>
    by_cases hr : shouldRetry cfg e = true
    · cases h1 : att 1 with
      | ok => simp [runRequest, h0, hr, h1]
      | err e2 => simp [runRequest, h0, hr, h1, shouldRetry_flag_false]
    · simp [runRequest, h0, hr]

lemma pollLoopAux_total (env : PollEnv) :
    ∀ fuel elapsed counter i, 7200000 ≤ elapsed + 5000 * fuel →
      ∃ o, pollLoopAux env fuel elapsed counter i = some o ∧
        (o = Outcome.failure timeoutMessage ∨
          ∃ m, o = Outcome.success m ∧ m.content ≠ "") := by
  intro fuel
  induction fuel with
  | zero =>
    intro elapsed counter i h
    refine ⟨Outcome.failure timeoutMessage, ?_, Or.inl rfl⟩
    unfold pollLoopAux
    rw [if_neg (by omega)]
  | succ n ih =>
    intro elapsed counter i h
    by_cases hg : elapsed < 7200000
    · cases hs : pollStep env counter i with
      | done m =>
        refine ⟨Outcome.success m, ?_, Or.inr ⟨m, rfl, pollStep_done hs⟩⟩
        unfold pollLoopAux
        rw [if_pos hg, hs]
      | cont c =>
        obtain ⟨o, ho, hchar⟩ :=
          ih (elapsed + 5000 + env.extra i) c (i + 1) (by
            have := Nat.mul_succ 5000 n
            omega)
        refine ⟨o, ?_, hchar⟩
        unfold pollLoopAux
        rw [if_pos hg, hs]
        exact ho
    · refine ⟨Outcome.failure timeoutMessage, ?_, Or.inl rfl⟩
      unfold pollLoopAux
      rw [if_neg hg]

/-! ## Claim theorems -/

/-- Claim C1, counterexample.  The claim states that a poll iteration whose
status check returns status error makes the loop stop and fail with the
error_detail.  In the environment `c1env` every status check returns the
error status with error_detail present; yet the iteration continues polling
(it even resets the consecutive-empty counter), and the whole loop runs to
the two-hour budget and throws the generic timeout message, never the
error_detail. -/
theorem errorStatus_stops_loop_cex :
    c1env.check 0 = CheckEvent.resp errorResp ∧
    errorResp.status = "error" ∧
    errorResp.error_detail = some "LLM backend unavailable" ∧
    pollStep c1env 0 0 = StepRes.cont 0 ∧
    pollLoop c1env = some (Outcome.failure timeoutMessage) ∧
    timeoutMessage ≠ "LLM backend unavailable" :=
  ⟨rfl, rfl, rfl, by decide, by decide, by decide⟩

/-- Claim C1, amended: a status response whose status is not `complete`
(the error status included) is treated exactly like a processing status:
the loop continues polling and resets the consecutive-empty counter to 0,
and error_detail is never propagated — the only error the mutation can
throw is the two-hour timeout message. -/
theorem errorStatus_treated_as_processing :
    (∀ (env : PollEnv) (counter i : Nat) (r : StatusResponse),
      env.check i = CheckEvent.resp r → r.status ≠ "complete" →
      pollStep env counter i = StepRes.cont 0) ∧
    (∀ (env : PollEnv) (msg : String),
      pollLoop env = some (Outcome.failure msg) → msg = timeoutMessage) := by
  constructor
  · intro env counter i r hc hs
    simp only [pollStep, hc]
    rw [if_neg hs]
  · intro env msg h
    obtain ⟨o, ho, hchar⟩ := pollLoopAux_total env 1440 0 0 0 (by norm_num)
    have : pollLoop env = some o := ho
    rw [h] at this
    cases this
    rcases hchar with h1 | ⟨m, hm, _⟩
    · cases h1; rfl
    · cases hm

/-- Witness for `errorStatus_treated_as_processing` at concrete inputs. -/
theorem errorStatus_treated_as_processing_witness :
    pollStep c1env 2 0 = StepRes.cont 0 ∧ timeoutMessage = timeoutMessage :=
  ⟨errorStatus_treated_as_processing.1 c1env 2 0 errorResp rfl (by decide),
   errorStatus_treated_as_processing.2 c1env timeoutMessage (by decide)⟩

/-- Claim C2, counterexample.  In `c2env` every status check returns
complete with a missing result, so iteration 2 is the third consecutive
empty response and the poller fetches the history `c2hist`.  That history
contains an assistant message with non-empty content (`msgHello`), which the
claim says is returned as the successful result; but the code takes the
latest assistant message regardless of content — here the content-less
`msgBlank` — and therefore keeps polling until the two-hour timeout. -/
theorem fallback_latest_assistant_cex :
    c2env.check 0 = CheckEvent.resp emptyCompleteResp ∧
    c2env.check 1 = CheckEvent.resp emptyCompleteResp ∧
    c2env.check 2 = CheckEvent.resp emptyCompleteResp ∧
    resultEmptyB emptyCompleteResp = true ∧
    c2env.histEmpty 2 = some c2hist ∧
    (msgHello ∈ c2hist ∧ msgHello.role = "assistant" ∧ msgHello.content ≠ "") ∧
    pollStep c2env 2 2 = StepRes.cont 3 ∧
    pollLoop c2env = some (Outcome.failure timeoutMessage) :=
  ⟨rfl, rfl, rfl, rfl, rfl, by decide, by decide, by decide⟩

/-- Claim C2, amended: on a complete status with an empty or missing result
the counter is incremented and, below three, the loop just continues; at
three consecutive empties the poller fetches the history and takes the
latest assistant-authored message, returning it as the successful result
only when that very message has non-empty content (an earlier assistant
message with content is never considered). -/
theorem fallback_latest_assistant_amended :
    (∀ (env : PollEnv) (counter i : Nat) (r : StatusResponse),
      env.check i = CheckEvent.resp r → r.status = "complete" →
      resultEmptyB r = true → counter + 1 < 3 →
      pollStep env counter i = StepRes.cont (counter + 1)) ∧
    (∀ (env : PollEnv) (counter i : Nat) (r : StatusResponse)
        (msgs : List ChatMsg) (m : ChatMsg),
      env.check i = CheckEvent.resp r → r.status = "complete" →
      resultEmptyB r = true → 3 ≤ counter + 1 →
      env.histEmpty i = some msgs → latestAssistant msgs = some m →
      m.content ≠ "" →
      pollStep env counter i = StepRes.done m) := by
  constructor
  · intro env counter i r hc hs he hlt
    rw [pollStep_complete_empty hc hs he]
    exact emptyCase_small hlt
  · intro env counter i r msgs m hc hs he h3 hh hl hcc
    exact pollStep_empty_fallback hc hs he h3 hh hl hcc

/-- Witness for `fallback_latest_assistant_amended` at concrete inputs. -/
theorem fallback_latest_assistant_amended_witness :
    pollStep goodHistEnv 0 0 = StepRes.cont 1 ∧
    pollStep goodHistEnv 2 0 = StepRes.done msgHello :=
  ⟨fallback_latest_assistant_amended.1 goodHistEnv 0 0 emptyCompleteResp rfl rfl rfl
      (by decide),
   fallback_latest_assistant_amended.2 goodHistEnv 2 0 emptyCompleteResp [msgHello] msgHello
      rfl rfl rfl (by decide) rfl (by decide) (by decide)⟩

/-- Claim C3: the poll loop always terminates, and when no result is
obtained (directly or through a history fallback) before the elapsed-time
variable reaches 7200000 ms it throws exactly the user-facing overloaded
message `timeoutMessage`.  The 5000 ms sleep per iteration and the 2-hour
guard are the constants of `pollLoopAux`; termination holds for every
environment because the elapsed time grows by at least 5000 ms per
iteration, bounding the loop by 1440 iterations of fuel. -/
theorem pollLoop_terminates (env : PollEnv) :
    pollLoop env = some (Outcome.failure timeoutMessage) ∨
      ∃ m, pollLoop env = some (Outcome.success m) := by
  obtain ⟨o, ho, hchar⟩ := pollLoopAux_total env 1440 0 0 0 (by norm_num)
  rcases hchar with h1 | ⟨m, hm, _⟩
  · left
    rw [← h1]
    exact ho
  · right
    exact ⟨m, by rw [← hm]; exact ho⟩

/-- Claim C4, counterexample.  In `c4env` every status check throws, and
each failing check lasts exactly 30000 ms, so errors are raised
continuously for far longer than 35 consecutive seconds; the claim says the
poller then falls back to the history (which holds the answer `msgHello`)
and succeeds.  But the catch guard compares against `lastPollTime`, which
was assigned at the start of the same iteration, so the strict
greater-than-30000 test is false every time: no fallback ever runs and the
loop ends in the two-hour timeout failure. -/
theorem errGrace_fallback_cex :
    c4env.check 0 = CheckEvent.threw ∧
    c4env.check 7 = CheckEvent.threw ∧
    c4env.errGap 0 = 30000 ∧
    c4env.extra 0 = 30000 ∧
    c4env.histCatch 0 = some [msgHello] ∧
    latestAssistant [msgHello] = some msgHello ∧
    msgHello.content ≠ "" ∧
    pollLoop c4env = some (Outcome.failure timeoutMessage) :=
  ⟨rfl, rfl, rfl, rfl, rfl, by decide, by decide, by decide⟩

/-- Claim C4, amended: the error-path fallback is governed by the duration
of the current iteration only — when a status check throws and at most
30000 ms have passed since `lastPollTime` (assigned at the start of that
same iteration), the error is swallowed and polling continues with the
counter unchanged, no matter how long errors have persisted across
iterations; the fallback runs exactly when the failing iteration itself
exceeded 30000 ms, and then a history whose latest assistant message has
non-empty content makes the flow succeed with that message, without
surfacing an error. -/
theorem errGrace_guard_amended :
    (∀ (env : PollEnv) (counter i : Nat),
      env.check i = CheckEvent.threw → env.errGap i ≤ 30000 →
      pollStep env counter i = StepRes.cont counter) ∧
    (∀ (env : PollEnv) (counter i : Nat) (msgs : List ChatMsg) (m : ChatMsg),
      env.check i = CheckEvent.threw → 30000 < env.errGap i →
      env.histCatch i = some msgs → latestAssistant msgs = some m →
      m.content ≠ "" →
      pollStep env counter i = StepRes.done m) := by
  constructor
  · intro env counter i hc hg
    simp only [pollStep, hc, catchCase]
    rw [if_neg (by omega)]
  · intro env counter i msgs m hc hg hh hl hcc
    simp only [pollStep, hc, catchCase]
    rw [if_pos hg, hh]
    exact historyFallback_good hl hcc

/-- Witness for `errGrace_guard_amended` at concrete inputs. -/
theorem errGrace_guard_amended_witness :
    pollStep c4env 0 0 = StepRes.cont 0 ∧
    pollStep lateErrEnv 0 0 = StepRes.done msgHello :=
  ⟨errGrace_guard_amended.1 c4env 0 0 rfl (by decide),
   errGrace_guard_amended.2 lateErrEnv 0 0 [msgHello] msgHello rfl (by decide) rfl
      (by decide) (by decide)⟩

/-- Claim C5, counterexample.  `checkMessageStatus` does retry once after
1000 ms and return the retried response; but the second half of the claim —
that a still-empty result makes the poller subsequently fall back to the
history and adopt the most recent assistant message — fails: in `c5env` the
first poll yields the (already retried) empty complete response and every
later poll yields processing, so the consecutive-empty counter is reset to
0 and the history (which holds `msgHello`) is never adopted; the run ends
in the timeout failure. -/
theorem checkStatus_retry_cex :
    checkMessageStatus (fun _ => emptyCompleteResp) =
      { returned := emptyCompleteResp, requests := 2, delayMs := 1000 } ∧
    c5env.check 0 = CheckEvent.resp emptyCompleteResp ∧
    c5env.check 1 = CheckEvent.resp processingResp ∧
    c5env.histEmpty 0 = some [msgHello] ∧
    latestAssistant [msgHello] = some msgHello ∧
    msgHello.content ≠ "" ∧
    pollLoop c5env = some (Outcome.failure timeoutMessage) :=
  ⟨by decide, by decide, by decide, by decide, by decide, by decide, by decide⟩

/-- Claim C5, amended: when the first status response is complete with the
result field missing, `checkMessageStatus` issues exactly one retried
request after a 1000 ms delay and returns the retried response
unconditionally (otherwise it returns the first response with no retry and
no delay); and the poller falls back to the history only on the third
consecutive empty complete response, adopting the latest assistant message
as the result exactly when that message has non-empty content. -/
theorem checkStatus_retry_amended :
    (∀ rs : Nat → StatusResponse,
      (rs 0).status = "complete" → (rs 0).result = none →
      checkMessageStatus rs = { returned := rs 1, requests := 2, delayMs := 1000 }) ∧
    (∀ rs : Nat → StatusResponse,
      ¬((rs 0).status = "complete" ∧ (rs 0).result = none) →
      checkMessageStatus rs = { returned := rs 0, requests := 1, delayMs := 0 }) ∧
    (∀ (env : PollEnv) (counter i : Nat) (r : StatusResponse)
        (msgs : List ChatMsg) (m : ChatMsg),
      env.check i = CheckEvent.resp r → r.status = "complete" →
      resultEmptyB r = true → 3 ≤ counter + 1 →
      env.histEmpty i = some msgs → latestAssistant msgs = some m →
      m.content ≠ "" →
      pollStep env counter i = StepRes.done m) := by
  refine ⟨?_, ?_, ?_⟩
  · intro rs hs hr
    unfold checkMessageStatus
    rw [if_pos ⟨hs, hr⟩]
  · intro rs hn
    unfold checkMessageStatus
    rw [if_neg hn]
  · intro env counter i r msgs m hc hs he h3 hh hl hcc
    exact pollStep_empty_fallback hc hs he h3 hh hl hcc

/-- Witness for `checkStatus_retry_amended` at concrete inputs. -/
theorem checkStatus_retry_amended_witness :
    checkMessageStatus (fun _ => emptyCompleteResp) =
      { returned := emptyCompleteResp, requests := 2, delayMs := 1000 } ∧
    checkMessageStatus (fun _ => processingResp) =
      { returned := processingResp, requests := 1, delayMs := 0 } ∧
    pollStep goodHistEnv 5 0 = StepRes.done msgHello :=
  ⟨checkStatus_retry_amended.1 (fun _ => emptyCompleteResp) rfl rfl,
   checkStatus_retry_amended.2.1 (fun _ => processingResp) (by decide),
   checkStatus_retry_amended.2.2 goodHistEnv 5 0 emptyCompleteResp [msgHello] msgHello
      rfl rfl rfl (by decide) rfl (by decide) (by decide)⟩

/-- Claim C6: a chat submission whose message trims to the empty string
(empty or whitespace-only) is rejected by `handleChatSubmit` before the
mutation is started, so the start-processing request is never issued and no
request_id is created for that input. -/
theorem handleChatSubmit_rejects_blank :
    ∀ msg : String, jsTrim msg = "" → handleChatSubmit msg = none := by
  intro msg h
  unfold handleChatSubmit
  rw [if_pos h]

/-- Witness for `handleChatSubmit_rejects_blank` on a whitespace-only
message mixing ASCII whitespace with an ideographic space and a
zero-width no-break space. -/
theorem handleChatSubmit_rejects_blank_witness :
    jsTrim " \t \u3000\uFEFF " = "" ∧ handleChatSubmit " \t \u3000\uFEFF " = none :=
  ⟨by decide, handleChatSubmit_rejects_blank " \t \u3000\uFEFF " (by decide)⟩

/-- Claim C7, counterexample.  The claim says every request through the
shared client is retried exactly once on a network error; but a request to
the auth-me endpoint that fails with a network error is not retried at all
— the interceptor excludes urls containing the auth-me path. -/
theorem retryPolicy_cex :
    netErr.hasResponse = false ∧
    urlIncludes meConfig.url "/auth/me" = true ∧
    runRequest meConfig alwaysNetErr =
      { result := AxiosResult.err netErr, attemptsMade := 1, delayMs := 0 } :=
  ⟨rfl, by decide, by decide⟩

/-- Claim C7, amended: every request config created by the shared client
carries the 7200000 ms timeout; on a network error, an ECONNABORTED
timeout, or a 5xx response, a request whose retry marker is unset and whose
url does not contain the auth-me path is retried exactly once after a
1000 ms wait (the second attempt is returned as is); errors of other kinds
(a response with status below 500 and no timeout code) are never retried;
and no request is ever attempted more than twice, because the retry marker
set before the retry falsifies the retry condition. -/
theorem retryPolicy_amended :
    (∀ url : String, (mkConfig url).timeoutMs = 7200000) ∧
    (∀ (cfg : AxiosConfig) (att : Nat → AxiosResult) (e : AxiosError),
      att 0 = AxiosResult.err e →
      (e.hasResponse = false ∨ e.econnaborted = true ∨ 500 ≤ e.status) →
      cfg.retryFlag = false → urlIncludes cfg.url "/auth/me" = false →
      runRequest cfg att = { result := att 1, attemptsMade := 2, delayMs := 1000 }) ∧
    (∀ (cfg : AxiosConfig) (att : Nat → AxiosResult) (e : AxiosError),
      att 0 = AxiosResult.err e →
      e.hasResponse = true → e.econnaborted = false → e.status < 500 →
      runRequest cfg att =
        { result := AxiosResult.err e, attemptsMade := 1, delayMs := 0 }) ∧
    (∀ (cfg : AxiosConfig) (att : Nat → AxiosResult),
      (runRequest cfg att).attemptsMade ≤ 2) := by
  refine ⟨fun _ => rfl, ?_, ?_, runRequest_attempts_le_two⟩
  · intro cfg att e h0 hkind hflag hurl
    have hr : shouldRetry cfg e = true := by
      rcases hkind with h | h | h <;> simp [shouldRetry, hflag, hurl, h]
    cases h1 : att 1 with
    | ok => simp [runRequest, h0, hr, h1]
    | err e2 => simp [runRequest, h0, hr, h1, shouldRetry_flag_false]
  · intro cfg att e h0 hresp hcode hstat
    have hst : ¬(500 ≤ e.status) := by omega
    have hr : shouldRetry cfg e = false := by
      simp [shouldRetry, hresp, hcode, hst]
    simp [runRequest, h0, hr]

/-- Witness for `retryPolicy_amended` at concrete inputs. -/
theorem retryPolicy_amended_witness :
    (mkConfig "/api/v1/sessions/s1/chat").timeoutMs = 7200000 ∧
    runRequest chatConfig alwaysNetErr =
      { result := AxiosResult.err netErr, attemptsMade := 2, delayMs := 1000 } ∧
    runRequest chatConfig always404 =
      { result := AxiosResult.err notFoundErr, attemptsMade := 1, delayMs := 0 } ∧
    (runRequest chatConfig alwaysNetErr).attemptsMade ≤ 2 :=
  ⟨retryPolicy_amended.1 "/api/v1/sessions/s1/chat",
   retryPolicy_amended.2.1 chatConfig alwaysNetErr netErr rfl (Or.inl rfl) rfl (by decide),
   retryPolicy_amended.2.2.1 chatConfig always404 notFoundErr rfl rfl rfl (by decide),
   retryPolicy_amended.2.2.2 chatConfig alwaysNetErr⟩

/-- Claim C8: `resetChat` only changes client state — it clears the typing
flag and the chat error, removes the typing-indicator placeholders from the
displayed history, and issues exactly one request, the GET that re-fetches
the chat history; folding the issued requests through any server semantics
in which reads do not mutate (spec-modelled, the backend source being
absent) leaves the server state unchanged. -/
theorem resetChat_client_only (id : String) (s : ChatUiState) :
    (resetChat id s).1.isTyping = false ∧
    (resetChat id s).1.chatError = none ∧
    (resetChat id s).1.chatHistory = s.chatHistory.filter (fun m => !(isIndicator m)) ∧
    (resetChat id s).2 =
      [{ method := HttpMethod.get, path := "/api/v1/sessions/" ++ id ++ "/chat" }] ∧
    (∀ (σ : Type) (writeSem : σ → ReqSpec → σ) (srv : σ),
      List.foldl (serverApply writeSem) srv (resetChat id s).2 = srv) :=
  ⟨rfl, rfl, rfl, rfl, fun _ _ _ => rfl⟩

/-- Claim C9: for every environment — in particular one in which every
status check throws — the poll loop terminates with a defined outcome and
no exception escapes it: the outcome is either a success carrying a message
with non-empty content (obtained directly from a complete status or through
a history fallback) or the two-hour timeout failure. -/
theorem pollLoop_no_escape (env : PollEnv) :
    ∃ o, pollLoop env = some o ∧
      (o = Outcome.failure timeoutMessage ∨
        ∃ m, o = Outcome.success m ∧ m.content ≠ "") :=
  pollLoopAux_total env 1440 0 0 0 (by norm_num)

/-- Claim C10: a request whose url contains the auth-me path is never
retried by the interceptor — whatever the error (network, timeout or 5xx),
exactly one attempt is made and its result is returned. -/
theorem authMe_never_retried :
    ∀ (cfg : AxiosConfig) (att : Nat → AxiosResult),
      urlIncludes cfg.url "/auth/me" = true →
      (runRequest cfg att).attemptsMade = 1 ∧ (runRequest cfg att).result = att 0 := by
  intro cfg att h
  have hs : ∀ e, shouldRetry cfg e = false := by
    intro e
    simp [shouldRetry, h]
  cases ha : att 0 with
  | ok => simp [runRequest, ha]
  | err e => simp [runRequest, ha, hs e]

/-- Witness for `authMe_never_retried` on the auth-me config and a
failing network. -/
theorem authMe_never_retried_witness :
    urlIncludes meConfig.url "/auth/me" = true ∧
    (runRequest meConfig alwaysNetErr).attemptsMade = 1 :=
  ⟨by decide, (authMe_never_retried meConfig alwaysNetErr (by decide)).1⟩

end LearnMate
